import Mathlib

/-!
Shallow embedding of the Spanish-named CRUD user server
(`package main`, file with `ServidorHTTP`): data model, handlers and
their request/response behaviour, followed by theorems checking the
specification's claims against them.

Conventions of the embedding:
* Go `int` is modelled as `Int`; the only arithmetic on it here is the
  `contadorID++` increment, whose 64-bit wraparound is unreachable for
  any request sequence considered.
* A decoded JSON request body is `Except String Usuario` (Go's
  `json.Decoder.Decode` either fails with an error string or fills a
  `Usuario` value, absent fields keeping their zero values).
* `omitempty` fields: `Datos` (`interface{}`) is `Option Datos`,
  absent iff `none`; `Error` is a `String`, absent in the emitted JSON
  iff it equals `""`.
* Each handler returns the (possibly updated) server state together
  with the HTTP status code and the `RespuestaJSON` it writes.
* Wall-clock time (`time.Now().Format(...)`) is passed in as an
  explicit `ahora : String` argument.
-/

/-- Source `Configuracion`: server configuration (inert for the registry logic). -/
structure Configuracion where
  puerto : Int
  direccionServidor : String
  tiempoEspera : Int
deriving Repr, DecidableEq

/-- Source `Usuario`: a user record (`ID`, `Nombre`, `Email`, `Creado`). -/
structure Usuario where
  id : Int
  nombre : String
  email : String
  creado : String
deriving Repr, DecidableEq

/-- Payloads that the server ever places in the `Datos` field. -/
inductive Datos where
  | usuario : Usuario → Datos
  | lista : List Usuario → Datos
  | mapaInicio : String → String → List String → Datos
  | mapaSalud : String → String → Datos
deriving Repr, DecidableEq

/-- Source `RespuestaJSON`: the uniform response envelope. -/
structure RespuestaJSON where
  exitoso : Bool
  mensaje : String
  datos : Option Datos
  error : String
deriving Repr, DecidableEq

/-- Source `ServidorHTTP`: configuration, the record collection, and the id counter. -/
structure ServidorHTTP where
  configuracion : Configuracion
  usuarios : List Usuario
  contadorID : Int
deriving Repr, DecidableEq

/-- Source `NuevoServidor`: fresh server with empty collection and counter 1. -/
def NuevoServidor (config : Configuracion) : ServidorHTTP :=
  { configuracion := config, usuarios := [], contadorID := 1 }

/-- ASCII decimal digit test, as used by `strconv.Atoi`. -/
def esDigito (c : Char) : Bool :=
  '0' ≤ c && c ≤ '9'

/-- Numeric value of a list of decimal digits. -/
def valorDigitos (cs : List Char) : Nat :=
  cs.foldl (fun a c => a * 10 + (c.toNat - 48)) 0

/-- Model of `strconv.Atoi`: optional sign, then one or more ASCII digits and
nothing else; the result must fit in a signed 64-bit `int`. -/
def atoi (str : String) : Except String Int :=
  let cs := str.toList
  let (neg, resto) :=
    match cs with
    | '-' :: r => (true, r)
    | '+' :: r => (false, r)
    | r => (false, r)
  if resto.isEmpty then Except.error "invalid syntax"
  else if resto.all esDigito then
    let v : Int := if neg then -(valorDigitos resto : Int) else (valorDigitos resto : Int)
    if v < -(2 ^ 63) ∨ 2 ^ 63 - 1 < v then Except.error "value out of range"
    else Except.ok v
  else Except.error "invalid syntax"

/-- Source `manejarInicio`: the `/` handler. -/
def manejarInicio (s : ServidorHTTP) : Nat × RespuestaJSON :=
  let _ := s
  (200,
   { exitoso := true
     mensaje := "¡Bienvenido al servidor HTTP en español!"
     datos := some (Datos.mapaInicio "1.0.0"
       "Servidor HTTP completo con documentación en español"
       ["/", "/usuarios", "/usuarios/{id}", "/salud", "/estado"])
     error := "" })

/-- Source `manejarSalud`: the `/salud` handler. -/
def manejarSalud (s : ServidorHTTP) (ahora : String) : Nat × RespuestaJSON :=
  let _ := s
  (200,
   { exitoso := true
     mensaje := "El servidor está funcionando correctamente"
     datos := some (Datos.mapaSalud ahora "saludable")
     error := "" })

/-- Source `obtenerUsuarios`: `GET /usuarios`, lists all users. -/
def obtenerUsuarios (s : ServidorHTTP) : Nat × RespuestaJSON :=
  (200,
   { exitoso := true
     mensaje := "Se encontraron " ++ toString s.usuarios.length ++ " usuarios"
     datos := some (Datos.lista s.usuarios)
     error := "" })

/-- Source `crearUsuario`: `POST /usuarios`. Decodes the body, rejects an empty
`Nombre` or `Email`, otherwise assigns `contadorID` and the creation
date, increments the counter and appends the record. -/
def crearUsuario (s : ServidorHTTP) (cuerpo : Except String Usuario)
    (ahora : String) : ServidorHTTP × Nat × RespuestaJSON :=
  match cuerpo with
  | Except.error e =>
    (s, 400,
     { exitoso := false, mensaje := ""
       datos := none, error := "Error al decodificar JSON: " ++ e })
  | Except.ok nuevoUsuario =>
    if nuevoUsuario.nombre = "" ∨ nuevoUsuario.email = "" then
      (s, 400,
       { exitoso := false, mensaje := ""
         datos := none, error := "Nombre y email son campos obligatorios" })
    else
      let creado := { nuevoUsuario with id := s.contadorID, creado := ahora }
      ({ s with
           contadorID := s.contadorID + 1
           usuarios := s.usuarios ++ [creado] },
       201,
       { exitoso := true
         mensaje := "Usuario creado exitosamente"
         datos := some (Datos.usuario creado)
         error := "" })

/-- Source `manejarUsuarios`: method dispatch on `/usuarios`; anything other
than `GET`/`POST` gets a 405. -/
def manejarUsuarios (s : ServidorHTTP) (metodo : String)
    (cuerpo : Except String Usuario) (ahora : String) :
    ServidorHTTP × Nat × RespuestaJSON :=
  match metodo with
  | "GET" => (s, obtenerUsuarios s)
  | "POST" => crearUsuario s cuerpo ahora
  | _ =>
    (s, 405,
     { exitoso := false, mensaje := ""
       datos := none, error := "Método HTTP no permitido" })

/-- The linear search loop of `manejarUsuarioPorID`. -/
def buscarUsuario (s : ServidorHTTP) (id : Int) : Option Usuario :=
  s.usuarios.find? (fun u => u.id = id)

/-- Source `manejarUsuarioPorID`: handler for `/usuarios/{id}`. `idStr` is the
path suffix after `/usuarios/`. The request method is received but,
exactly as in the source, never inspected. -/
def manejarUsuarioPorID (s : ServidorHTTP) (metodo : String)
    (idStr : String) : Nat × RespuestaJSON :=
  let _ := metodo
  match atoi idStr with
  | Except.error _ =>
    (400,
     { exitoso := false, mensaje := ""
       datos := none, error := "ID de usuario inválido" })
  | Except.ok id =>
    match buscarUsuario s id with
    | some usuario =>
      (200,
       { exitoso := true, mensaje := "Usuario encontrado"
         datos := some (Datos.usuario usuario), error := "" })
    | none =>
      (404,
       { exitoso := false, mensaje := ""
         datos := none, error := "Usuario no encontrado" })

/-- A request body is valid when neither required field is empty. -/
def cuerpoValido (u : Usuario) : Prop :=
  u.nombre ≠ "" ∧ u.email ≠ ""

instance (u : Usuario) : Decidable (cuerpoValido u) := by
  unfold cuerpoValido; infer_instance

/-- State reached after a sequence of `crearUsuario` calls, each given
as a decoded body together with its creation timestamp. -/
def crearLote (s : ServidorHTTP) (entradas : List (Usuario × String)) :
    ServidorHTTP :=
  entradas.foldl (fun st e => (crearUsuario st (Except.ok e.1) e.2).1) s

/-- The list `[c, c+1, …, c+n-1]`: `n` consecutive integers starting at `c`. -/
def idsDesde (c : Int) : Nat → List Int
  | 0 => []
  | n + 1 => c :: idsDesde (c + 1) n

/-- One interleavable primitive step of the body of `crearUsuario`
after validation: read the counter into the pending record, increment
the counter, or append the pending record. The source performs these
three mutations of shared state with no lock around them. -/
inductive PasoCrear where
  | leerID
  | incrementar
  | agregar
deriving Repr, DecidableEq

/-- Effect of one primitive step on the shared server state and the
handler's thread-local pending record. -/
def ejecutarPaso (s : ServidorHTTP) (u : Usuario) :
    PasoCrear → ServidorHTTP × Usuario
  | PasoCrear.leerID => (s, { u with id := s.contadorID })
  | PasoCrear.incrementar => ({ s with contadorID := s.contadorID + 1 }, u)
  | PasoCrear.agregar => ({ s with usuarios := s.usuarios ++ [u] }, u)

/-- The program order of the critical section of `crearUsuario`. -/
def pasosCrear : List PasoCrear :=
  [PasoCrear.leerID, PasoCrear.incrementar, PasoCrear.agregar]

/-- State of two in-flight `crearUsuario` handlers: shared server
state plus each thread's pending record and remaining steps. -/
structure EstadoConcurrente where
  compartido : ServidorHTTP
  pendienteA : Usuario
  restoA : List PasoCrear
  pendienteB : Usuario
  restoB : List PasoCrear
deriving Repr, DecidableEq

/-- Run one scheduled step (`false` = thread A, `true` = thread B);
a thread with no remaining steps leaves the state unchanged. -/
def pasoPlanificado (e : EstadoConcurrente) (hilo : Bool) :
    EstadoConcurrente :=
  if hilo then
    match e.restoB with
    | [] => e
    | p :: resto =>
      let (s, u) := ejecutarPaso e.compartido e.pendienteB p
      { e with compartido := s, pendienteB := u, restoB := resto }
  else
    match e.restoA with
    | [] => e
    | p :: resto =>
      let (s, u) := ejecutarPaso e.compartido e.pendienteA p
      { e with compartido := s, pendienteA := u, restoA := resto }

/-- Run a whole schedule over two concurrent `crearUsuario` bodies
that both passed validation, starting from server state `s`. -/
def ejecutarPlan (s : ServidorHTTP) (uA uB : Usuario)
    (plan : List Bool) : EstadoConcurrente :=
  plan.foldl pasoPlanificado
    { compartido := s, pendienteA := uA, restoA := pasosCrear
      pendienteB := uB, restoB := pasosCrear }

/-- The server-side operations reachable through the route table, with
the inputs each handler reads. Only the `POST /usuarios` branch
mutates state. -/
inductive Operacion where
  | inicio
  | salud (ahora : String)
  | usuarios (metodo : String) (cuerpo : Except String Usuario) (ahora : String)
  | usuarioPorID (metodo : String) (idStr : String)

/-- State transition of one handled request. -/
def ejecutarOperacion (s : ServidorHTTP) : Operacion → ServidorHTTP
  | Operacion.inicio => s
  | Operacion.salud _ => s
  | Operacion.usuarios metodo cuerpo ahora =>
    (manejarUsuarios s metodo cuerpo ahora).1
  | Operacion.usuarioPorID _ _ => s

/-- Registry invariant: the counter is one more than the number of
stored records, and every stored id lies in `[1, contadorID)`. -/
def Invariante (s : ServidorHTTP) : Prop :=
  s.contadorID = s.usuarios.length + 1 ∧
    ∀ u ∈ s.usuarios, 1 ≤ u.id ∧ u.id < s.contadorID

/-- Contract of the envelope: `success = true` forces an absent `error`; `success = false`
forces an absent `data` (absence per the `omitempty` encoding). -/
def SobreBienFormado (r : RespuestaJSON) : Prop :=
  (r.exitoso = true → r.error = "") ∧ (r.exitoso = false → r.datos = none)

/-- A valid body makes `crearUsuario` take the success branch. -/
theorem crearUsuario_exito (s : ServidorHTTP) (u : Usuario) (t : String)
    (hv : cuerpoValido u) :
    crearUsuario s (Except.ok u) t =
      ({ s with
           contadorID := s.contadorID + 1
           usuarios := s.usuarios ++ [{ u with id := s.contadorID, creado := t }] },
       201,
       { exitoso := true
         mensaje := "Usuario creado exitosamente"
         datos := some (Datos.usuario { u with id := s.contadorID, creado := t })
         error := "" }) := by
  have h : ¬(u.nombre = "" ∨ u.email = "") := by
    rcases hv with ⟨h1, h2⟩
    push_neg
    exact ⟨h1, h2⟩
  simp [crearUsuario, h]

/-- Searching a concatenation when nothing in the prefix matches. -/
theorem find?_append_sin_prefijo {α : Type} (p : α → Bool) (xs ys : List α)
    (h : ∀ x ∈ xs, p x = false) :
    (xs ++ ys).find? p = ys.find? p := by
  induction xs with
  | nil => rfl
  | cons a xs ih =>
    have ha : p a = false := h a (by simp)
    have hxs : ∀ x ∈ xs, p x = false := fun x hx => h x (by simp [hx])
    simp [List.find?, ha, ih hxs]

/-- Shape of `crearLote`: a run of valid creates appends records whose
ids are the consecutive integers starting at the incoming counter, and
advances the counter by the number of creates. -/
theorem crearLote_spec (entradas : List (Usuario × String)) :
    ∀ s : ServidorHTTP, (∀ e ∈ entradas, cuerpoValido e.1) →
      (crearLote s entradas).usuarios.map Usuario.id =
        s.usuarios.map Usuario.id ++ idsDesde s.contadorID entradas.length ∧
      (crearLote s entradas).contadorID = s.contadorID + entradas.length := by
  induction entradas with
  | nil =>
    intro s _
    simp [crearLote, idsDesde]
  | cons e es ih =>
    intro s h
    have hv : cuerpoValido e.1 := h e (by simp)
    have hpaso : (crearUsuario s (Except.ok e.1) e.2).1 =
        { s with
            contadorID := s.contadorID + 1
            usuarios := s.usuarios ++ [{ e.1 with id := s.contadorID, creado := e.2 }] } := by
      rw [crearUsuario_exito s e.1 e.2 hv]
    have hes : ∀ x ∈ es, cuerpoValido x.1 := fun x hx => h x (by simp [hx])
    have hlote : crearLote s (e :: es) =
        crearLote { s with
            contadorID := s.contadorID + 1
            usuarios := s.usuarios ++ [{ e.1 with id := s.contadorID, creado := e.2 }] } es := by
      simp [crearLote, hpaso]
    rcases ih { s with
        contadorID := s.contadorID + 1
        usuarios := s.usuarios ++ [{ e.1 with id := s.contadorID, creado := e.2 }] } hes
      with ⟨hids, hcont⟩
    constructor
    · rw [hlote, hids]
      simp [idsDesde]
    · rw [hlote, hcont]
      simp [List.length_cons]
      ring

/-- C1: on a freshly constructed server, any sequence of N valid
(hence successful) `crearUsuario` calls assigns exactly the identifiers
`[1, 2, …, N]` in that order: the counter starts at 1 and each
successful create uses the current counter value and increments it. -/
theorem creaciones_ids_consecutivos (config : Configuracion)
    (entradas : List (Usuario × String))
    (h : ∀ e ∈ entradas, cuerpoValido e.1) :
    (crearLote (NuevoServidor config) entradas).usuarios.map Usuario.id =
      idsDesde 1 entradas.length ∧
    (crearLote (NuevoServidor config) entradas).contadorID =
      1 + entradas.length := by
  have hspec := crearLote_spec entradas (NuevoServidor config) h
  constructor
  · have h1 := hspec.1
    simpa [NuevoServidor] using h1
  · have h2 := hspec.2
    simpa [NuevoServidor] using h2

/-- Witness for C1 at three concrete creations. -/
theorem creaciones_ids_consecutivos_witness :
    (∀ e ∈ ([(⟨0, "María García", "maria@ejemplo.com", ""⟩, "t1"),
             (⟨0, "Carlos López", "carlos@ejemplo.com", ""⟩, "t2"),
             (⟨7, "Ana Ruiz", "ana@ejemplo.com", ""⟩, "t3")] :
        List (Usuario × String)), cuerpoValido e.1) ∧
    ((crearLote (NuevoServidor ⟨8080, "localhost", 30⟩)
        [(⟨0, "María García", "maria@ejemplo.com", ""⟩, "t1"),
         (⟨0, "Carlos López", "carlos@ejemplo.com", ""⟩, "t2"),
         (⟨7, "Ana Ruiz", "ana@ejemplo.com", ""⟩, "t3")]).usuarios.map Usuario.id =
      idsDesde 1 3 ∧
     (crearLote (NuevoServidor ⟨8080, "localhost", 30⟩)
        [(⟨0, "María García", "maria@ejemplo.com", ""⟩, "t1"),
         (⟨0, "Carlos López", "carlos@ejemplo.com", ""⟩, "t2"),
         (⟨7, "Ana Ruiz", "ana@ejemplo.com", ""⟩, "t3")]).contadorID = 1 + 3) :=
  ⟨by decide,
   creaciones_ids_consecutivos ⟨8080, "localhost", 30⟩
     [(⟨0, "María García", "maria@ejemplo.com", ""⟩, "t1"),
      (⟨0, "Carlos López", "carlos@ejemplo.com", ""⟩, "t2"),
      (⟨7, "Ana Ruiz", "ana@ejemplo.com", ""⟩, "t3")] (by decide)⟩

/-- C2: the unguarded interleaving in which both handlers read the
counter before either increments it — available because `ServidorHTTP`
carries no lock and `crearUsuario` takes none — assigns id 1 to both
concurrently created records and leaves the counter at 3. -/
theorem crearUsuario_carrera_ids_duplicados :
    ((ejecutarPlan (NuevoServidor ⟨8080, "localhost", 30⟩)
        ⟨0, "Ana", "ana@ejemplo.com", ""⟩
        ⟨0, "Luis", "luis@ejemplo.com", ""⟩
        [false, true, false, true, false, true]).compartido.usuarios.map
          Usuario.id = [1, 1]) ∧
    (ejecutarPlan (NuevoServidor ⟨8080, "localhost", 30⟩)
        ⟨0, "Ana", "ana@ejemplo.com", ""⟩
        ⟨0, "Luis", "luis@ejemplo.com", ""⟩
        [false, true, false, true, false, true]).compartido.contadorID = 3 := by
  constructor
  · rfl
  · rfl

/-- C3 counterexample: a body whose name and email are a single space
(empty after trimming) is accepted — status 201 and a successful
envelope — whereas the claim demands a `ValidationError`. -/
theorem crearUsuario_espacios_aceptados :
    (crearUsuario (NuevoServidor ⟨8080, "localhost", 30⟩)
        (Except.ok ⟨0, " ", " ", ""⟩) "2024-01-15 10:00:00").2.1 = 201 ∧
    (crearUsuario (NuevoServidor ⟨8080, "localhost", 30⟩)
        (Except.ok ⟨0, " ", " ", ""⟩) "2024-01-15 10:00:00").2.2.exitoso = true := by
  constructor
  · rfl
  · rfl

/-- C3 amended: for a decodable body, `crearUsuario` returns the
validation error (status 400 with the required-fields message) exactly
when the name or the email is the empty string — no whitespace
trimming is applied, so whitespace-only fields are accepted. -/
theorem crearUsuario_validacion_sin_recorte (s : ServidorHTTP)
    (u : Usuario) (t : String) :
    ((crearUsuario s (Except.ok u) t).2.1 = 400 ∧
     (crearUsuario s (Except.ok u) t).2.2.error =
       "Nombre y email son campos obligatorios") ↔
      (u.nombre = "" ∨ u.email = "") := by
  by_cases h : u.nombre = "" ∨ u.email = ""
  · simp [crearUsuario, h]
  · simp [crearUsuario, h]

/-- Witness for C3's amended statement at a concrete empty-name body. -/
theorem crearUsuario_validacion_sin_recorte_witness :
    (crearUsuario (NuevoServidor ⟨8080, "localhost", 30⟩)
        (Except.ok ⟨0, "", "a@b.com", ""⟩) "t").2.1 = 400 ∧
    (crearUsuario (NuevoServidor ⟨8080, "localhost", 30⟩)
        (Except.ok ⟨0, "", "a@b.com", ""⟩) "t").2.2.error =
      "Nombre y email son campos obligatorios" :=
  (crearUsuario_validacion_sin_recorte (NuevoServidor ⟨8080, "localhost", 30⟩)
      ⟨0, "", "a@b.com", ""⟩ "t").mpr (Or.inl rfl)

/-- C4 counterexample: `0` and `-1` parse as integers, so the handler
answers 404 (`Usuario no encontrado`), not the claimed 400
`InvalidIdentifierError`. -/
theorem usuarioPorID_cero_y_negativo_404 :
    (manejarUsuarioPorID (NuevoServidor ⟨8080, "localhost", 30⟩) "GET" "0").1 = 404 ∧
    (manejarUsuarioPorID (NuevoServidor ⟨8080, "localhost", 30⟩) "GET" "-1").1 = 404 := by
  constructor
  · rfl
  · rfl

/-- C4 amended: the 400 invalid-identifier response is returned exactly
for strings `strconv.Atoi` rejects; any string that parses to an
integer — positive, zero or negative — that matches no stored record
gets the 404 not-found response. -/
theorem usuarioPorID_clasificacion (s : ServidorHTTP)
    (metodo idStr : String) :
    ((∃ e, atoi idStr = Except.error e) ↔
      manejarUsuarioPorID s metodo idStr =
        (400, ⟨false, "", none, "ID de usuario inválido"⟩)) ∧
    (∀ id : Int, atoi idStr = Except.ok id → buscarUsuario s id = none →
      manejarUsuarioPorID s metodo idStr =
        (404, ⟨false, "", none, "Usuario no encontrado"⟩)) := by
  constructor
  · constructor
    · rintro ⟨e, he⟩
      simp [manejarUsuarioPorID, he]
    · intro h
      match hy : atoi idStr with
      | Except.error e => exact ⟨e, rfl⟩
      | Except.ok id =>
        exfalso
        rcases hb : buscarUsuario s id with _ | u
        · simp [manejarUsuarioPorID, hy, hb] at h
        · simp [manejarUsuarioPorID, hy, hb] at h
  · intro id hid hnone
    simp [manejarUsuarioPorID, hid, hnone]

/-- Witness for C4's amended statement: a non-numeric id and an absent
numeric id on a fresh server. -/
theorem usuarioPorID_clasificacion_witness :
    manejarUsuarioPorID (NuevoServidor ⟨8080, "localhost", 30⟩) "GET" "abc" =
      (400, ⟨false, "", none, "ID de usuario inválido"⟩) ∧
    manejarUsuarioPorID (NuevoServidor ⟨8080, "localhost", 30⟩) "GET" "999999" =
      (404, ⟨false, "", none, "Usuario no encontrado"⟩) :=
  ⟨(usuarioPorID_clasificacion (NuevoServidor ⟨8080, "localhost", 30⟩)
      "GET" "abc").1.mp ⟨"invalid syntax", by rfl⟩,
   (usuarioPorID_clasificacion (NuevoServidor ⟨8080, "localhost", 30⟩)
      "GET" "999999").2 999999 (by rfl) (by rfl)⟩

/-- C5: whenever `crearUsuario` answers with a failure envelope
(decode error or missing required field), the server state — the
record collection, the counter and the configuration — is returned
unchanged. -/
theorem crearUsuario_fallo_sin_mutacion (s : ServidorHTTP)
    (cuerpo : Except String Usuario) (t : String)
    (h : (crearUsuario s cuerpo t).2.2.exitoso = false) :
    (crearUsuario s cuerpo t).1 = s := by
  match cuerpo with
  | Except.error e => rfl
  | Except.ok u =>
    by_cases hv : u.nombre = "" ∨ u.email = ""
    · simp [crearUsuario, hv]
    · exfalso
      simp [crearUsuario, hv] at h

/-- Witness for C5 at a concrete invalid body on a non-empty server. -/
theorem crearUsuario_fallo_sin_mutacion_witness :
    (crearUsuario
        { configuracion := ⟨8080, "localhost", 30⟩
          usuarios := [⟨1, "Ana", "ana@ejemplo.com", "t0"⟩]
          contadorID := 2 }
        (Except.ok ⟨9, "", "", ""⟩) "t1").2.2.exitoso = false ∧
    (crearUsuario
        { configuracion := ⟨8080, "localhost", 30⟩
          usuarios := [⟨1, "Ana", "ana@ejemplo.com", "t0"⟩]
          contadorID := 2 }
        (Except.ok ⟨9, "", "", ""⟩) "t1").1 =
      { configuracion := ⟨8080, "localhost", 30⟩
        usuarios := [⟨1, "Ana", "ana@ejemplo.com", "t0"⟩]
        contadorID := 2 } :=
  ⟨by rfl,
   crearUsuario_fallo_sin_mutacion
     { configuracion := ⟨8080, "localhost", 30⟩
       usuarios := [⟨1, "Ana", "ana@ejemplo.com", "t0"⟩]
       contadorID := 2 }
     (Except.ok ⟨9, "", "", ""⟩) "t1" (by rfl)⟩

/-- C6: every envelope any handler ever writes — for every state,
method, body, timestamp and id string — satisfies the contract:
`exitoso = true` forces an empty (hence omitted) `error`, and
`exitoso = false` forces an absent `datos`. -/
theorem respuestas_sobre_bien_formado (s : ServidorHTTP) (metodo : String)
    (cuerpo : Except String Usuario) (ahora idStr : String) :
    SobreBienFormado (manejarInicio s).2 ∧
    SobreBienFormado (manejarSalud s ahora).2 ∧
    SobreBienFormado (obtenerUsuarios s).2 ∧
    SobreBienFormado (crearUsuario s cuerpo ahora).2.2 ∧
    SobreBienFormado (manejarUsuarios s metodo cuerpo ahora).2.2 ∧
    SobreBienFormado (manejarUsuarioPorID s metodo idStr).2 := by
  have hcrear : ∀ c, SobreBienFormado (crearUsuario s c ahora).2.2 := by
    intro c
    match c with
    | Except.error e => simp [crearUsuario, SobreBienFormado]
    | Except.ok u =>
      by_cases hv : u.nombre = "" ∨ u.email = ""
      · simp [crearUsuario, hv, SobreBienFormado]
      · simp [crearUsuario, hv, SobreBienFormado]
  have hporID : SobreBienFormado (manejarUsuarioPorID s metodo idStr).2 := by
    match hy : atoi idStr with
    | Except.error e => simp [manejarUsuarioPorID, hy, SobreBienFormado]
    | Except.ok id =>
      rcases hb : buscarUsuario s id with _ | u
      · simp [manejarUsuarioPorID, hy, hb, SobreBienFormado]
      · simp [manejarUsuarioPorID, hy, hb, SobreBienFormado]
  have husuarios : SobreBienFormado (manejarUsuarios s metodo cuerpo ahora).2.2 := by
    by_cases hg : metodo = "GET"
    · simp [manejarUsuarios, hg, obtenerUsuarios, SobreBienFormado]
    · by_cases hp : metodo = "POST"
      · subst hp
        simpa [manejarUsuarios] using hcrear cuerpo
      · simp [manejarUsuarios, hg, hp, SobreBienFormado]
  exact ⟨by simp [manejarInicio, SobreBienFormado],
         by simp [manejarSalud, SobreBienFormado],
         by simp [obtenerUsuarios, SobreBienFormado],
         hcrear cuerpo, husuarios, hporID⟩

/-- Closed instance of C6 at concrete inputs. -/
theorem respuestas_sobre_bien_formado_witness :
    SobreBienFormado
      (manejarInicio (NuevoServidor ⟨8080, "localhost", 30⟩)).2 ∧
    SobreBienFormado
      (manejarSalud (NuevoServidor ⟨8080, "localhost", 30⟩) "t").2 ∧
    SobreBienFormado
      (obtenerUsuarios (NuevoServidor ⟨8080, "localhost", 30⟩)).2 ∧
    SobreBienFormado
      (crearUsuario (NuevoServidor ⟨8080, "localhost", 30⟩)
        (Except.ok ⟨0, "", "", ""⟩) "t").2.2 ∧
    SobreBienFormado
      (manejarUsuarios (NuevoServidor ⟨8080, "localhost", 30⟩) "DELETE"
        (Except.ok ⟨0, "", "", ""⟩) "t").2.2 ∧
    SobreBienFormado
      (manejarUsuarioPorID (NuevoServidor ⟨8080, "localhost", 30⟩) "DELETE"
        "0").2 :=
  respuestas_sobre_bien_formado (NuevoServidor ⟨8080, "localhost", 30⟩)
    "DELETE" (Except.ok ⟨0, "", "", ""⟩) "t" "0"

/-- C7: if the collection holds no record with the current counter
value (true in every reachable state), then after a successful create
returning record `r`, looking up an id string that parses to `r.id`
finds exactly `r`. -/
theorem crear_luego_obtener (s : ServidorHTTP) (u : Usuario)
    (t metodo idStr : String) (r : Usuario)
    (hv : cuerpoValido u)
    (hinv : ∀ v ∈ s.usuarios, v.id ≠ s.contadorID)
    (hr : (crearUsuario s (Except.ok u) t).2.2.datos = some (Datos.usuario r))
    (hid : atoi idStr = Except.ok r.id) :
    manejarUsuarioPorID (crearUsuario s (Except.ok u) t).1 metodo idStr =
      (200, ⟨true, "Usuario encontrado", some (Datos.usuario r), ""⟩) := by
  rw [crearUsuario_exito s u t hv] at hr ⊢
  have hreq : { u with id := s.contadorID, creado := t } = r := by
    simpa using hr
  subst hreq
  have hfind : buscarUsuario
      { s with
          contadorID := s.contadorID + 1
          usuarios := s.usuarios ++ [{ u with id := s.contadorID, creado := t }] }
      ({ u with id := s.contadorID, creado := t }).id =
      some { u with id := s.contadorID, creado := t } := by
    unfold buscarUsuario
    simp only []
    rw [find?_append_sin_prefijo]
    · simp [List.find?]
    · intro x hx
      simp only [decide_eq_false_iff_not]
      intro hEq
      exact hinv x hx (by simpa using hEq)
  simp [manejarUsuarioPorID, hid, hfind]

/-- Witness for C7: create María on a fresh server, then fetch id 1. -/
theorem crear_luego_obtener_witness :
    manejarUsuarioPorID
      (crearUsuario (NuevoServidor ⟨8080, "localhost", 30⟩)
        (Except.ok ⟨0, "María García", "maria@ejemplo.com", ""⟩) "t1").1
      "GET" "1" =
      (200, ⟨true, "Usuario encontrado",
        some (Datos.usuario ⟨1, "María García", "maria@ejemplo.com", "t1"⟩), ""⟩) :=
  crear_luego_obtener (NuevoServidor ⟨8080, "localhost", 30⟩)
    ⟨0, "María García", "maria@ejemplo.com", ""⟩ "t1" "GET" "1"
    ⟨1, "María García", "maria@ejemplo.com", "t1"⟩
    (by decide) (by intro v hv; simp [NuevoServidor] at hv) (by rfl) (by rfl)

/-- C8 counterexample: a DELETE on the single-record path is not
rejected with 405; with id 1 on a fresh registry it answers 404. -/
theorem usuarioPorID_metodo_no_verificado :
    (manejarUsuarioPorID (NuevoServidor ⟨8080, "localhost", 30⟩)
        "DELETE" "1").1 = 404 ∧
    (manejarUsuarioPorID (NuevoServidor ⟨8080, "localhost", 30⟩)
        "DELETE" "1").1 ≠ 405 := by
  constructor
  · rfl
  · decide

/-- C8 amended: only the collection path enforces methods — anything
other than GET or POST there gets 405 — while the single-record
handler never reads the method: every method is served identically to
GET and its status is never 405. -/
theorem metodos_no_permitidos (s : ServidorHTTP) (metodo : String)
    (cuerpo : Except String Usuario) (ahora idStr : String)
    (h1 : metodo ≠ "GET") (h2 : metodo ≠ "POST") :
    (manejarUsuarios s metodo cuerpo ahora).2.1 = 405 ∧
    manejarUsuarioPorID s metodo idStr = manejarUsuarioPorID s "GET" idStr ∧
    (manejarUsuarioPorID s metodo idStr).1 ≠ 405 := by
  refine ⟨by simp [manejarUsuarios, h1, h2], rfl, ?_⟩
  match hy : atoi idStr with
  | Except.error e => simp [manejarUsuarioPorID, hy]
  | Except.ok id =>
    rcases hb : buscarUsuario s id with _ | u
    · simp [manejarUsuarioPorID, hy, hb]
    · simp [manejarUsuarioPorID, hy, hb]

/-- Witness for C8's amended statement with method DELETE. -/
theorem metodos_no_permitidos_witness :
    (manejarUsuarios (NuevoServidor ⟨8080, "localhost", 30⟩) "DELETE"
        (Except.ok ⟨0, "Ana", "ana@ejemplo.com", ""⟩) "t").2.1 = 405 ∧
    manejarUsuarioPorID (NuevoServidor ⟨8080, "localhost", 30⟩) "DELETE" "1" =
      manejarUsuarioPorID (NuevoServidor ⟨8080, "localhost", 30⟩) "GET" "1" ∧
    (manejarUsuarioPorID (NuevoServidor ⟨8080, "localhost", 30⟩)
        "DELETE" "1").1 ≠ 405 :=
  metodos_no_permitidos (NuevoServidor ⟨8080, "localhost", 30⟩) "DELETE"
    (Except.ok ⟨0, "Ana", "ana@ejemplo.com", ""⟩) "t" "1"
    (by decide) (by decide)

/-- C9: the registry, not the client, assigns the id. The outcome of
`crearUsuario` is identical whatever id the decoded body carried, and
when a record is returned its id is the counter value at the call. -/
theorem id_asignado_por_registro (s : ServidorHTTP) (u : Usuario)
    (idCliente : Int) (t : String) (hv : cuerpoValido u) :
    crearUsuario s (Except.ok { u with id := idCliente }) t =
      crearUsuario s (Except.ok u) t ∧
    ∀ r, (crearUsuario s (Except.ok u) t).2.2.datos =
        some (Datos.usuario r) → r.id = s.contadorID := by
  have hv' : cuerpoValido { u with id := idCliente } := hv
  constructor
  · rw [crearUsuario_exito _ _ _ hv', crearUsuario_exito _ _ _ hv]
  · intro r hr
    rw [crearUsuario_exito _ _ _ hv] at hr
    have hreq : { u with id := s.contadorID, creado := t } = r := by
      simpa using hr
    rw [← hreq]

/-- Witness for C9: a client-supplied id 999 is ignored; the record
gets id 1 on a fresh server. -/
theorem id_asignado_por_registro_witness :
    crearUsuario (NuevoServidor ⟨8080, "localhost", 30⟩)
        (Except.ok ⟨999, "Ana", "ana@ejemplo.com", ""⟩) "t" =
      crearUsuario (NuevoServidor ⟨8080, "localhost", 30⟩)
        (Except.ok ⟨0, "Ana", "ana@ejemplo.com", ""⟩) "t" ∧
    ∀ r, (crearUsuario (NuevoServidor ⟨8080, "localhost", 30⟩)
        (Except.ok ⟨0, "Ana", "ana@ejemplo.com", ""⟩) "t").2.2.datos =
        some (Datos.usuario r) → r.id = 1 :=
  id_asignado_por_registro (NuevoServidor ⟨8080, "localhost", 30⟩)
    ⟨0, "Ana", "ana@ejemplo.com", ""⟩ 999 "t" (by decide)

/-- Each handled request preserves the registry invariant. -/
theorem ejecutarOperacion_invariante (s : ServidorHTTP) (op : Operacion)
    (h : Invariante s) : Invariante (ejecutarOperacion s op) := by
  match op with
  | Operacion.inicio => exact h
  | Operacion.salud a => exact h
  | Operacion.usuarioPorID m i => exact h
  | Operacion.usuarios metodo cuerpo ahora =>
    by_cases hg : metodo = "GET"
    · simpa [ejecutarOperacion, manejarUsuarios, hg] using h
    · by_cases hp : metodo = "POST"
      · subst hp
        simp only [ejecutarOperacion, manejarUsuarios]
        match cuerpo with
        | Except.error e => exact h
        | Except.ok u =>
          by_cases hvv : u.nombre = "" ∨ u.email = ""
          · simpa [crearUsuario, hvv] using h
          · have hv : cuerpoValido u := by
              rcases not_or.mp hvv with ⟨hn, he⟩
              exact ⟨hn, he⟩
            rw [crearUsuario_exito s u ahora hv]
            dsimp only
            rcases h with ⟨hc, hids⟩
            constructor
            · simp only [List.length_append, List.length_cons, List.length_nil]
              push_cast
              omega
            · intro v hvm
              rcases List.mem_append.mp hvm with hin | hnuevo
              · rcases hids v hin with ⟨h1, h2⟩
                refine ⟨h1, ?_⟩
                show v.id < s.contadorID + 1
                omega
              · have hveq : v = { u with id := s.contadorID, creado := ahora } := by
                  simpa using hnuevo
                subst hveq
                constructor
                · show (1 : Int) ≤ s.contadorID
                  omega
                · show s.contadorID < s.contadorID + 1
                  omega
      · simpa [ejecutarOperacion, manejarUsuarios, hg, hp] using h

/-- C10: after any sequence of handled requests on a fresh server, the
counter equals the number of stored records plus one and every stored
id lies in `[1, contadorID)` — so the counter strictly exceeds every
identifier ever assigned. -/
theorem contador_excede_ids (config : Configuracion)
    (ops : List Operacion) :
    Invariante (ops.foldl ejecutarOperacion (NuevoServidor config)) := by
  have base : Invariante (NuevoServidor config) := by
    constructor
    · simp [NuevoServidor]
    · intro v hv
      simp [NuevoServidor] at hv
  have gen : ∀ l : List Operacion, ∀ st : ServidorHTTP, Invariante st →
      Invariante (l.foldl ejecutarOperacion st) := by
    intro l
    induction l with
    | nil => intro st h; exact h
    | cons op l ih =>
      intro st h
      exact ih _ (ejecutarOperacion_invariante st op h)
  exact gen ops _ base

/-- Closed instance of C10 after two creates and one lookup. -/
theorem contador_excede_ids_witness :
    Invariante
      ([Operacion.usuarios "POST"
          (Except.ok ⟨0, "María García", "maria@ejemplo.com", ""⟩) "t1",
        Operacion.usuarios "POST"
          (Except.ok ⟨0, "Carlos López", "carlos@ejemplo.com", ""⟩) "t2",
        Operacion.usuarioPorID "GET" "1"].foldl ejecutarOperacion
        (NuevoServidor ⟨8080, "localhost", 30⟩)) :=
  contador_excede_ids ⟨8080, "localhost", 30⟩
    [Operacion.usuarios "POST"
        (Except.ok ⟨0, "María García", "maria@ejemplo.com", ""⟩) "t1",
      Operacion.usuarios "POST"
        (Except.ok ⟨0, "Carlos López", "carlos@ejemplo.com", ""⟩) "t2",
      Operacion.usuarioPorID "GET" "1"]
